import Mathlib

/-!
Verification of the restic GUI backend (Go sources: `app.go`,
`internal/restic/runner.go`) against its specification.  The Go functions
are shallowly embedded as pure Lean functions; external effects (the
subprocess, the filesystem) are represented by explicit parameters
describing their observable outcomes, and the orchestration code is
embedded as a function producing the ordered trace of actions it performs.
-/

namespace ResticSpec

/-! ## Models of the Go string primitives used by the sources.
Strings are handled at the character-list level; case folding is ASCII,
matching the behaviour of the Go originals on the ASCII texts involved. -/

/-- Character-list prefix test (executable). -/
def listStartsWith : List Char → List Char → Bool
  | [], _ => true
  | _ :: _, [] => false
  | a :: as, b :: bs => a = b && listStartsWith as bs

/-- Character-list substring test (executable): `sub` occurs inside `l`. -/
def listContains (sub : List Char) : List Char → Bool
  | [] => sub.isEmpty
  | c :: rest => listStartsWith sub (c :: rest) || listContains sub rest

/-- Model of Go `strings.Contains s sub`. -/
def goContains (s sub : String) : Bool :=
  listContains sub.toList s.toList

/-- Model of Go `strings.ToLower` (ASCII case folding). -/
def goLower (s : String) : String :=
  String.mk (s.toList.map Char.toLower)

/-- Model of Go `strings.TrimSpace`: drop whitespace from both ends. -/
def goTrimSpace (s : String) : String :=
  String.mk (((s.toList.dropWhile Char.isWhitespace).reverse.dropWhile
    Char.isWhitespace).reverse)

/-- Model of Go `len` on a string: its UTF-8 byte length. -/
def goByteLen (l : List Char) : Nat :=
  (l.map Char.utf8Size).sum

/-- Character-list splitter behind `splitLines` (from `app.go`): cut at
every newline, and keep a final segment only when it is non-empty
(mirrors the `start < len(s)` check of the source). -/
def splitLinesList : List Char → List (List Char)
  | [] => []
  | c :: cs =>
    if c = '\n' then [] :: splitLinesList cs
    else
      match splitLinesList cs with
      | [] => [[c]]
      | l :: ls => (c :: l) :: ls

/-- Embedding of `splitLines` from `app.go`. -/
def splitLines (s : String) : List String :=
  (splitLinesList s.toList).map String.mk

/-! ## Error translator (`friendlyError`, `runner.go`). -/

/-- Embedding of `friendlyError` from `runner.go`: the case-insensitive
substring switch over the raw engine text. -/
def friendlyError (raw : String) : String :=
  let lower := goLower raw
  if goContains lower "wrong password" then
    "Wrong password for this repository."
  else if goContains lower "no such file" || goContains lower "repository does not exist" then
    "Repository not initialized. Go to Repositories → Edit → click \"Initialize repository\" first."
  else if goContains lower "connection refused" || goContains lower "network" || goContains lower "dial" then
    "Network error. Is the server reachable?"
  else if goContains lower "permission denied" then
    "Access denied. Please check permissions."
  else if goContains lower "already initialized" then
    "Repository already exists."
  else if goContains lower "is already locked" then
    "Repository is locked. Please wait or unlock it manually."
  else
    if raw = "" then "Unknown error" else raw

/-- The translator hits one of its fixed branches: the lowercased text
contains at least one of the known substrings of the switch. -/
def matchesKnown (s : String) : Bool :=
  let lower := goLower s
  goContains lower "wrong password" ||
  goContains lower "no such file" || goContains lower "repository does not exist" ||
  goContains lower "connection refused" || goContains lower "network" || goContains lower "dial" ||
  goContains lower "permission denied" ||
  goContains lower "already initialized" ||
  goContains lower "is already locked"

/-- The six fixed user-facing messages of the translation table. -/
def fixedMessages : List String :=
  ["Wrong password for this repository.",
   "Repository not initialized. Go to Repositories → Edit → click \"Initialize repository\" first.",
   "Network error. Is the server reachable?",
   "Access denied. Please check permissions.",
   "Repository already exists.",
   "Repository is locked. Please wait or unlock it manually."]

/-! ## Synchronous runner (`Run`, `runner.go`). -/

/-- Result of a synchronous invocation: the returned output text and the
error message, if any. -/
structure RunResult where
  output : String
  err : Option String
deriving DecidableEq, Repr

/-- Embedding of `Runner.Run` (`runner.go`), abstracting the subprocess by
its observable outcome: the combined output text it produced and whether
it exited cleanly (`cmd.CombinedOutput` returns a nil error).  On failure
the call returns an empty output and the translated, trimmed text. -/
def runSync (combinedOutput : String) (exitOk : Bool) : RunResult :=
  if exitOk then
    { output := combinedOutput, err := none }
  else
    { output := "", err := some (friendlyError (goTrimSpace combinedOutput)) }

/-! ## Streaming runner (`RunWithProgress` / `Cancel`, `runner.go`). -/

/-- Terminal outcome of a streaming invocation, as classified by
`RunWithProgress` when `cmd.Wait` returns. -/
inductive StreamOutcome
  | completed
  | cancelled
  | failed (msg : String)
deriving DecidableEq, Repr

/-- Embedding of the classification at the end of `RunWithProgress`
(`runner.go`): `cmd.Wait` succeeding (`exitOk`) yields a nil error;
otherwise a cancelled context (`cancelRequested`, set by `Cancel`) yields
the `cancelled` sentinel, and any other failure yields the translated
accumulated standard-error text. -/
def classifyExit (cancelRequested exitOk : Bool) (stderrText : String) : StreamOutcome :=
  if exitOk then .completed
  else if cancelRequested then .cancelled
  else .failed (friendlyError (goTrimSpace stderrText))

/-- Per-line behaviour of the progress callbacks in `app.go`
(`StartBackup`, `StartRestore`, `RestoreSelected`): decode the line, emit
exactly the successfully decoded record, drop the line otherwise.  The
decoder parameter models `json.Unmarshal` into the record type. -/
def emitPerLine {α : Type} (decode : String → Option α) (line : String) : List α :=
  match decode line with
  | some p => [p]
  | none => []

/-- Records delivered to the subscriber over a whole streamed invocation:
the callback is applied to each standard-output line in arrival order. -/
def streamEvents {α : Type} (decode : String → Option α) (lines : List String) : List α :=
  lines.flatMap (emitPerLine decode)

/-! ## Subprocess invocation construction (`runner.go`). -/

/-- Observable shape of a child-process launch: the binary, its
command-line argument list, and its environment. -/
structure Invocation where
  binaryPath : String
  args : List String
  env : List String
deriving DecidableEq, Repr

/-- Embedding of the invocation built by `Runner.Run` (`runner.go`):
arguments are passed through unchanged; the repository URI and password
are appended to the inherited environment only when the URI is
non-empty. -/
def runCmd (resticPath repoURI password : String) (args : List String)
    (baseEnv : List String) : Invocation :=
  { binaryPath := resticPath
    args := args
    env :=
      if repoURI ≠ "" then
        baseEnv ++ ["RESTIC_REPOSITORY=" ++ repoURI, "RESTIC_PASSWORD=" ++ password]
      else baseEnv }

/-- Embedding of the invocation built by `Runner.RunWithProgress`
(`runner.go`): arguments are passed through unchanged; the two
credential variables are always appended to the inherited environment. -/
def runWithProgressCmd (resticPath repoURI password : String) (args : List String)
    (baseEnv : List String) : Invocation :=
  { binaryPath := resticPath
    args := args
    env := baseEnv ++ ["RESTIC_REPOSITORY=" ++ repoURI, "RESTIC_PASSWORD=" ++ password] }

/-! ## Argument construction in `app.go`. -/

/-- One `--flag value` pair per element, in element order (the
`append(args, flag, v)` loops of `app.go`). -/
def flagPairs (flag : String) (vals : List String) : List String :=
  vals.flatMap (fun v => [flag, v])

/-- Backup job as bound from the frontend (`internal/restic` types). -/
structure BackupJob where
  repoID : String
  sourcePaths : List String
  excludes : List String
  tags : List String
deriving DecidableEq, Repr

/-- Argument list built by `StartBackup` (`app.go`). -/
def backupArgs (job : BackupJob) : List String :=
  ["backup", "--json"] ++ flagPairs "--exclude" job.excludes ++
    flagPairs "--tag" job.tags ++ job.sourcePaths

/-- Argument list built for a selective restore (`RestoreSelected`,
`app.go`): both the staging branch and the custom-target branch build
`restore <snapshot> --target <target> --json` followed by one
`--include <path>` pair per selected path. -/
def restoreSelectedArgs (snapshotID target : String) (includePaths : List String) :
    List String :=
  ["restore", snapshotID, "--target", target, "--json"] ++
    flagPairs "--include" includePaths

/-! ## Drive-letter extraction (`extractDriveLetter`, `app.go`). -/

/-- Separator normalisation of `extractDriveLetter`: backslashes become
forward slashes (`strings.ReplaceAll`). -/
def normalizeSeps (l : List Char) : List Char :=
  l.map (fun c => if c = '\\' then '/' else c)

/-- Model of `strings.TrimPrefix(norm, "/")`: drop one leading slash. -/
def trimLeadingSlash : List Char → List Char
  | '/' :: rest => rest
  | l => l

/-- First path segment, as `strings.SplitN(norm, "/", 2)` computes its
first component. -/
def firstSegment (l : List Char) : List Char :=
  l.takeWhile (fun c => c ≠ '/')

/-- The leading segment `extractDriveLetter` inspects, given the raw
restic path. -/
def leadingSegment (path : String) : List Char :=
  firstSegment (trimLeadingSlash (normalizeSeps path.toList))

/-- Embedding of `extractDriveLetter` (`app.go`): normalise separators,
trim one leading slash, take the first segment; if its Go length (UTF-8
bytes) is exactly 1, return it upper-cased, else return the empty
string. -/
def extractDriveLetter (path : String) : String :=
  let seg := leadingSegment path
  if goByteLen seg = 1 then String.mk (seg.map Char.toUpper) else ""

/-! ## Windows path helpers (`filepath.Join` / `filepath.Dir`), modelled
for the already-clean paths the orchestrator builds. -/

/-- Model of `filepath.Join a b` on clean Windows paths: insert a
backslash unless `a` already ends with one. -/
def winJoin (a b : String) : String :=
  if a.toList.getLast? = some '\\' then a ++ b else a ++ "\\" ++ b

/-- Model of `filepath.Dir` on clean Windows paths: the part before the
last backslash; a volume root keeps its trailing backslash, a
separator-free path yields ".". -/
def winDir (s : String) : String :=
  match (s.toList.reverse.dropWhile (fun c => c ≠ '\\')) with
  | [] => "."
  | _ :: preRev =>
    match preRev with
    | [] => "\\"
    | c :: _ => if c = ':' then String.mk preRev.reverse ++ "\\" else String.mk preRev.reverse

/-! ## Restore orchestration (`RestoreSelected` / `moveContents`,
`app.go`), embedded as the ordered trace of actions performed. -/

/-- An observable step of the restore orchestration. -/
inductive Action
  | mkdirAll (path : String)
  | runRestic (args : List String)
  | rename (src dst : String)
  | copyPath (src dst : String)
  | removeAll (path : String)
  | emitError (msg : String)
  | emitComplete
deriving DecidableEq, Repr

/-- Outcome of `os.ReadDir` on the staging subtree. -/
inductive ReadDirResult
  | ok (entries : List String)
  | notExist
  | fail (msg : String)
deriving DecidableEq, Repr

/-- Abstraction of the filesystem outcomes `moveContents` can observe:
directory listing, `os.MkdirAll` (error message or success),
`os.Rename` success, and `copyPath` (error message or success). -/
structure MoveEnv where
  readDir : String → ReadDirResult
  mkdir : String → Option String
  renameOk : String → String → Bool
  copyErr : String → String → Option String

/-- Loop body of `moveContents` for one directory entry (`app.go`):
ensure the destination's parent, attempt the rename, and on rename
failure fall back to a recursive copy followed by deletion of the
source (whose own error is ignored). -/
def moveEntry (env : MoveEnv) (src dst name : String) : List Action × Option String :=
  let srcPath := winJoin src name
  let dstPath := winJoin dst name
  match env.mkdir (winDir dstPath) with
  | some e => ([.mkdirAll (winDir dstPath)], some e)
  | none =>
    if env.renameOk srcPath dstPath then
      ([.mkdirAll (winDir dstPath), .rename srcPath dstPath], none)
    else
      match env.copyErr srcPath dstPath with
      | some e =>
        ([.mkdirAll (winDir dstPath), .rename srcPath dstPath, .copyPath srcPath dstPath],
         some e)
      | none =>
        ([.mkdirAll (winDir dstPath), .rename srcPath dstPath, .copyPath srcPath dstPath,
          .removeAll srcPath], none)

/-- The entry loop of `moveContents`: stop at the first failing entry. -/
def moveLoop (env : MoveEnv) (src dst : String) : List String → List Action × Option String
  | [] => ([], none)
  | name :: rest =>
    match moveEntry env src dst name with
    | (acts, some e) => (acts, some e)
    | (acts, none) =>
      match moveLoop env src dst rest with
      | (acts2, r) => (acts ++ acts2, r)

/-- Embedding of `moveContents` (`app.go`): a missing source directory is
success ("nothing to move"); any other listing error fails; otherwise
each entry is moved in listing order. -/
def moveContents (env : MoveEnv) (src dst : String) : List Action × Option String :=
  match env.readDir src with
  | .notExist => ([], none)
  | .fail msg => ([], some msg)
  | .ok entries => moveLoop env src dst entries

/-- Staging directory name built by the original-location branch of
`RestoreSelected`: drive letter, the fixed infix, and the first 8
characters of the fresh UUID string (`uuid.New().String()[:8]`; UUID
text is ASCII, so Go's byte slice is the character prefix). -/
def stagingDir (driveLetter uuidStr : String) : String :=
  driveLetter ++ ":\\restic-gui-temp-" ++ String.mk (uuidStr.toList.take 8)

/-- Trace of the original-location goroutine of `RestoreSelected`
(`app.go`).  External outcomes are parameters: the fresh UUID string,
the result of creating the staging directory (`mkTempErr`), the result
of the streamed restore invocation (`runErr`: `nil`, the translated
failure, or the cancellation sentinel), and the filesystem behaviour
seen by the move phase. -/
def origTrace (snapshotID : String) (includePaths : List String) (uuidStr : String)
    (mkTempErr : Option String) (runErr : Option String) (env : MoveEnv) : List Action :=
  let driveLetter := extractDriveLetter (includePaths.headD "")
  if driveLetter = "" then
    [.emitError "Could not determine drive letter from path"]
  else
    let tempDir := stagingDir driveLetter uuidStr
    match mkTempErr with
    | some e => [.mkdirAll tempDir, .emitError ("Failed to create temp directory: " ++ e)]
    | none =>
      [.mkdirAll tempDir,
       .runRestic (restoreSelectedArgs snapshotID tempDir includePaths)] ++
      (match runErr with
       | some e => [.emitError e, .removeAll tempDir]
       | none =>
         let srcBase := winJoin tempDir driveLetter
         let dstBase := driveLetter ++ ":\\"
         match moveContents env srcBase dstBase with
         | (macts, some e) => macts ++ [.emitError ("Move failed: " ++ e), .removeAll tempDir]
         | (macts, none) => macts ++ [.emitComplete, .removeAll tempDir])

/-- Trace of the custom-target goroutine of `RestoreSelected`. -/
def customTrace (snapshotID targetPath : String) (includePaths : List String)
    (runErr : Option String) : List Action :=
  [.runRestic (restoreSelectedArgs snapshotID targetPath includePaths)] ++
  (match runErr with
   | some e => [.emitError e]
   | none => [.emitComplete])

/-- Result of calling `RestoreSelected`: an immediate error return, or a
nil return together with the trace of the launched goroutine. -/
inductive RestoreCall
  | err (msg : String)
  | started (trace : List Action)
deriving DecidableEq, Repr

/-- Embedding of `RestoreSelected` (`app.go`): the synchronous guard
chain (runner present, repository found, non-empty selection) followed
by one of the two restore strategies. -/
def restoreSelected (runnerPresent repoFound : Bool) (snapshotID : String)
    (includePaths : List String) (targetPath : String) (toOriginal : Bool)
    (uuidStr : String) (mkTempErr : Option String) (runErr : Option String)
    (env : MoveEnv) : RestoreCall :=
  if runnerPresent = false then .err "restic not found"
  else if repoFound = false then .err "repository not found"
  else if includePaths.length = 0 then .err "no paths selected"
  else if toOriginal then
    .started (origTrace snapshotID includePaths uuidStr mkTempErr runErr env)
  else
    .started (customTrace snapshotID targetPath includePaths runErr)

/-- Actions performed by a `RestoreSelected` call: none when it returned
an immediate error. -/
def startedActions : RestoreCall → List Action
  | .err _ => []
  | .started tr => tr

/-- Number of engine invocations in a trace. -/
def countRunRestic (tr : List Action) : Nat :=
  tr.countP (fun a => match a with | .runRestic _ => true | _ => false)

/-! ## Frontend guard on selective restore
(`frontend/src/pages/SelectiveRestore.tsx`, `startRestore`). -/

/-- Outcome of the UI `startRestore` handler: a warning toast with no
backend call, or a call to `RestoreSelected` with the shown arguments. -/
inductive FrontendStart
  | blocked (warning : String)
  | calls (includePaths : List String) (targetPath : String) (toOriginal : Bool)
deriving DecidableEq, Repr

/-- Embedding of the UI `startRestore` handler: an empty selection or
custom mode with an empty (falsy) target path blocks the call;
otherwise `RestoreSelected` is invoked with the checked paths, the
target path, and `restoreMode === 'original'`. -/
def uiStartRestore (restoreMode : String) (checkedPaths : List String)
    (targetPath : String) : FrontendStart :=
  if checkedPaths.length = 0 then .blocked "No entries selected"
  else if restoreMode = "custom" && targetPath = "" then
    .blocked "Please select a target folder"
  else .calls checkedPaths targetPath (restoreMode = "original")

/-- Actions performed by the whole selective-restore pathway: the UI
guard followed, only when it passes, by the backend call. -/
def uiRestoreActions (restoreMode : String) (checkedPaths : List String)
    (targetPath : String) (runnerPresent repoFound : Bool) (snapshotID uuidStr : String)
    (mkTempErr runErr : Option String) (env : MoveEnv) : List Action :=
  match uiStartRestore restoreMode checkedPaths targetPath with
  | .blocked _ => []
  | .calls paths tp toOrig =>
    startedActions (restoreSelected runnerPresent repoFound snapshotID paths tp toOrig
      uuidStr mkTempErr runErr env)

/-! ## Snapshot-contents listing (`ListSnapshotContents`, `app.go`). -/

/-- Embedding of the `restic.FileNode` record (`ls --json` line). -/
structure FileNode where
  structType : String
  name : String
  type : String
  path : String
  size : Nat
  mtime : String
deriving DecidableEq, Repr

/-- Per-line step of the `ListSnapshotContents` loop: empty lines and
undecodable lines are skipped, and only records tagged `"node"` are
kept.  The decoder parameter models `json.Unmarshal` into `FileNode`. -/
def lineToNode (decode : String → Option FileNode) (line : String) : Option FileNode :=
  if line = "" then none
  else
    match decode line with
    | none => none
    | some node => if node.structType = "node" then some node else none

/-- Embedding of `ListSnapshotContents` (`app.go`) after a successful
`ls --json` invocation, applied to the captured output text. -/
def listSnapshotContents (decode : String → Option FileNode) (out : String) :
    List FileNode :=
  (splitLines out).filterMap (lineToNode decode)

/-! ## Helper lemmas. -/

/-- Whenever the raw text hits the translation table, the translator
returns one of the six fixed messages. -/
theorem friendlyError_mem_fixed (s : String) (h : matchesKnown s = true) :
    friendlyError s ∈ fixedMessages := by
  simp only [friendlyError, fixedMessages]
  simp only [matchesKnown] at h
  repeat' split
  all_goals simp_all

/-! ## Claim theorems. -/

/-- C5: for every input string to the error translator, a known
substring of the lowercased text (in the switch's priority order) yields
the corresponding fixed user-facing message, unmatched non-empty text
passes through verbatim, and empty text becomes the generic unknown-error
message. -/
theorem c5_error_translation (s : String) :
    (s = "" → friendlyError s = "Unknown error") ∧
    (matchesKnown s = false → s ≠ "" → friendlyError s = s) ∧
    (goContains (goLower s) "wrong password" = true →
      friendlyError s = "Wrong password for this repository.") ∧
    (goContains (goLower s) "wrong password" = false →
      (goContains (goLower s) "no such file" = true ∨
        goContains (goLower s) "repository does not exist" = true) →
      friendlyError s =
        "Repository not initialized. Go to Repositories → Edit → click \"Initialize repository\" first.") ∧
    (goContains (goLower s) "wrong password" = false →
      goContains (goLower s) "no such file" = false →
      goContains (goLower s) "repository does not exist" = false →
      (goContains (goLower s) "connection refused" = true ∨
        goContains (goLower s) "network" = true ∨ goContains (goLower s) "dial" = true) →
      friendlyError s = "Network error. Is the server reachable?") ∧
    (goContains (goLower s) "wrong password" = false →
      goContains (goLower s) "no such file" = false →
      goContains (goLower s) "repository does not exist" = false →
      goContains (goLower s) "connection refused" = false →
      goContains (goLower s) "network" = false →
      goContains (goLower s) "dial" = false →
      goContains (goLower s) "permission denied" = true →
      friendlyError s = "Access denied. Please check permissions.") ∧
    (goContains (goLower s) "wrong password" = false →
      goContains (goLower s) "no such file" = false →
      goContains (goLower s) "repository does not exist" = false →
      goContains (goLower s) "connection refused" = false →
      goContains (goLower s) "network" = false →
      goContains (goLower s) "dial" = false →
      goContains (goLower s) "permission denied" = false →
      goContains (goLower s) "already initialized" = true →
      friendlyError s = "Repository already exists.") ∧
    (goContains (goLower s) "wrong password" = false →
      goContains (goLower s) "no such file" = false →
      goContains (goLower s) "repository does not exist" = false →
      goContains (goLower s) "connection refused" = false →
      goContains (goLower s) "network" = false →
      goContains (goLower s) "dial" = false →
      goContains (goLower s) "permission denied" = false →
      goContains (goLower s) "already initialized" = false →
      goContains (goLower s) "is already locked" = true →
      friendlyError s = "Repository is locked. Please wait or unlock it manually.") := by
  refine ⟨?_, ?_, ?_, ?_, ?_, ?_, ?_, ?_⟩
  · intro h; subst h; decide
  · intro hm hne
    simp only [friendlyError]
    simp only [matchesKnown] at hm
    repeat' split
    all_goals simp_all
  · intro h1; simp [friendlyError, h1]
  · intro h1 h2; rcases h2 with h2 | h2 <;> simp [friendlyError, h1, h2]
  · intro h1 h2 h3 h4; rcases h4 with h4 | h4 | h4 <;>
      simp [friendlyError, h1, h2, h3, h4]
  · intro h1 h2 h3 h4 h5 h6 h7; simp [friendlyError, h1, h2, h3, h4, h5, h6, h7]
  · intro h1 h2 h3 h4 h5 h6 h7 h8
    simp [friendlyError, h1, h2, h3, h4, h5, h6, h7, h8]
  · intro h1 h2 h3 h4 h5 h6 h7 h8 h9
    simp [friendlyError, h1, h2, h3, h4, h5, h6, h7, h8, h9]

/-- Witness for C5 at concrete translator inputs. -/
theorem c5_witness :
    friendlyError "Fatal: wrong password or no key found" =
      "Wrong password for this repository." ∧
    friendlyError "dial tcp 10.0.0.1:22: connection refused" =
      "Network error. Is the server reachable?" ∧
    friendlyError "some odd engine text" = "some odd engine text" ∧
    friendlyError "" = "Unknown error" :=
  ⟨(c5_error_translation "Fatal: wrong password or no key found").2.2.1 (by decide),
   (c5_error_translation "dial tcp 10.0.0.1:22: connection refused").2.2.2.2.1
     (by decide) (by decide) (by decide) (Or.inl (by decide)),
   (c5_error_translation "some odd engine text").2.1 (by decide) (by decide),
   (c5_error_translation "").1 rfl⟩

/-- C4 (counterexample): when the raw engine text is itself one of the
fixed table messages, it matches a known substring and yet the surfaced
message equals the raw engine text verbatim, so "the surfaced message is
never the raw engine text" fails at this input. -/
theorem c4_counterexample :
    matchesKnown "Wrong password for this repository." = true ∧
    (runSync "Wrong password for this repository." false).err =
      some "Wrong password for this repository." := by
  exact ⟨by decide, by decide⟩

/-- C4 (amended): a zero-exit invocation returns the full captured
output and no error; a non-zero exit returns empty output and an error
message that is the translation of the trimmed combined output, and when
that text matches a known substring the surfaced message is one of the
six fixed table messages (it can coincide with the raw text only when
the raw text is itself that fixed message). -/
theorem c4_run_sync_amended (out : String) :
    runSync out true = { output := out, err := none } ∧
    (runSync out false).output = "" ∧
    (runSync out false).err = some (friendlyError (goTrimSpace out)) ∧
    (matchesKnown (goTrimSpace out) = true →
      ∃ m ∈ fixedMessages, (runSync out false).err = some m) :=
  ⟨rfl, rfl, rfl,
   fun h => ⟨friendlyError (goTrimSpace out), friendlyError_mem_fixed _ h, rfl⟩⟩

/-- Witness for C4 at a concrete failing invocation. -/
theorem c4_witness :
    matchesKnown (goTrimSpace "Fatal: wrong password or no key found\n") = true ∧
    (∃ m ∈ fixedMessages,
      (runSync "Fatal: wrong password or no key found\n" false).err = some m) :=
  ⟨by decide,
   (c4_run_sync_amended "Fatal: wrong password or no key found\n").2.2.2 (by decide)⟩

/-- C2 (counterexample): a cancellation requested before the subprocess
ends does not yield outcome Cancelled when the subprocess exits zero —
`RunWithProgress` checks `cmd.Wait` first and reports completion. -/
theorem c2_counterexample :
    classifyExit true true "" = StreamOutcome.completed ∧
    classifyExit true true "" ≠ StreamOutcome.cancelled :=
  ⟨rfl, by decide⟩

/-- C2 (amended): a zero exit reports completion regardless of
cancellation; a non-zero exit with a cancellation requested reports
Cancelled (never Failed); a non-zero exit without cancellation reports
the translated failure. -/
theorem c2_cancel_classification_amended (cancelRequested exitOk : Bool)
    (stderrText : String) :
    (exitOk = true → classifyExit cancelRequested exitOk stderrText = .completed) ∧
    (exitOk = false → cancelRequested = true →
      classifyExit cancelRequested exitOk stderrText = .cancelled) ∧
    (exitOk = false → cancelRequested = false →
      classifyExit cancelRequested exitOk stderrText =
        .failed (friendlyError (goTrimSpace stderrText))) := by
  refine ⟨fun h => ?_, fun h hc => ?_, fun h hc => ?_⟩ <;> subst_vars <;> simp [classifyExit]

/-- Witness for C2 at concrete classifications. -/
theorem c2_witness :
    classifyExit true false "exit status 1" = StreamOutcome.cancelled ∧
    classifyExit false true "" = StreamOutcome.completed ∧
    classifyExit false false "dial tcp: connection refused" =
      StreamOutcome.failed "Network error. Is the server reachable?" :=
  ⟨(c2_cancel_classification_amended true false "exit status 1").2.1 rfl rfl,
   (c2_cancel_classification_amended false true "").1 rfl,
   by
    have h := (c2_cancel_classification_amended false false
      "dial tcp: connection refused").2.2 rfl rfl
    rw [h]; decide⟩

/-- C3: the records delivered over a streamed invocation are exactly the
successfully decoded lines in arrival order; processing is per-line (an
undecodable line contributes nothing and does not abort the remainder of
the stream). -/
theorem c3_stream_records {α : Type} (decode : String → Option α)
    (lines extra : List String) :
    streamEvents decode lines = lines.filterMap decode ∧
    streamEvents decode (lines ++ extra) =
      streamEvents decode lines ++ streamEvents decode extra ∧
    (∀ line, decode line = none → emitPerLine decode line = []) ∧
    (∀ line p, decode line = some p → emitPerLine decode line = [p]) := by
  refine ⟨?_, ?_, ?_, ?_⟩
  · induction lines with
    | nil => rfl
    | cons l ls ih =>
      simp only [streamEvents, List.flatMap_cons, List.filterMap_cons] at *
      cases h : decode l <;> simp [emitPerLine, h, ih]
  · simp [streamEvents]
  · intro line h; simp [emitPerLine, h]
  · intro line p h; simp [emitPerLine, h]

/-- Concrete decoder used to witness C3. -/
def demoDecodeNat : String → Option Nat :=
  fun line => if line = "ok" then some 1 else none

/-- Witness for C3 with a concrete decoder and line sequence. -/
theorem c3_witness :
    streamEvents demoDecodeNat ["ok", "bad"] = [1] ∧
    emitPerLine demoDecodeNat "bad" = [] ∧
    emitPerLine demoDecodeNat "ok" = [1] :=
  ⟨rfl,
   (c3_stream_records demoDecodeNat ["ok", "bad"] []).2.2.1 "bad" rfl,
   (c3_stream_records demoDecodeNat ["ok", "bad"] []).2.2.2 "ok" 1 rfl⟩

/-- C8: the argument list of every runner invocation is the caller's
argument list, unchanged and independent of the repository URI and the
secret; the credentials are carried only by the two environment
variables appended to the inherited environment. -/
theorem c8_credentials_not_in_args (resticPath u₁ p₁ u₂ p₂ : String)
    (args baseEnv : List String) :
    (runCmd resticPath u₁ p₁ args baseEnv).args = args ∧
    (runWithProgressCmd resticPath u₁ p₁ args baseEnv).args = args ∧
    (runCmd resticPath u₁ p₁ args baseEnv).args =
      (runCmd resticPath u₂ p₂ args baseEnv).args ∧
    (runWithProgressCmd resticPath u₁ p₁ args baseEnv).args =
      (runWithProgressCmd resticPath u₂ p₂ args baseEnv).args ∧
    (runWithProgressCmd resticPath u₁ p₁ args baseEnv).env =
      baseEnv ++ ["RESTIC_REPOSITORY=" ++ u₁, "RESTIC_PASSWORD=" ++ p₁] ∧
    (u₁ ≠ "" → (runCmd resticPath u₁ p₁ args baseEnv).env =
      baseEnv ++ ["RESTIC_REPOSITORY=" ++ u₁, "RESTIC_PASSWORD=" ++ p₁]) := by
  refine ⟨rfl, rfl, rfl, rfl, rfl, fun h => ?_⟩
  simp [runCmd, h]

/-- Witness for C8 at a concrete invocation. -/
theorem c8_witness :
    (runCmd "restic.exe" "sftp:backup@host:/srv" "hunter2" ["cat", "config"]
      ["PATH=C:"]).env =
      ["PATH=C:", "RESTIC_REPOSITORY=sftp:backup@host:/srv", "RESTIC_PASSWORD=hunter2"] :=
  (c8_credentials_not_in_args "restic.exe" "sftp:backup@host:/srv" "hunter2" "" ""
    ["cat", "config"] ["PATH=C:"]).2.2.2.2.2 (by decide)

/-- A character list whose Go (UTF-8 byte) length is 1 has exactly one
character, since every character occupies at least one byte. -/
theorem goByteLen_eq_one {l : List Char} (h : goByteLen l = 1) : l.length = 1 := by
  match l with
  | [] => simp [goByteLen] at h
  | [c] => rfl
  | c :: d :: rest =>
    exfalso
    have hc := Char.utf8Size_pos c
    have hd := Char.utf8Size_pos d
    simp only [goByteLen, List.map_cons, List.sum_cons] at h
    omega

/-- C9: snapshot-contents listing, given that the first output line does
not decode to a record tagged "node" (it describes the snapshot itself):
the first line never contributes a returned entry, each later line
contributes through the per-line step, where a line that decodes to a
"node" record yields exactly that entry and an undecodable line is
skipped without failing the operation. -/
theorem c9_listing_discards_first (decode : String → Option FileNode)
    (out firstLine : String) (rest : List String)
    (hsplit : splitLines out = firstLine :: rest)
    (hfirst : ∀ n, decode firstLine = some n → n.structType ≠ "node") :
    listSnapshotContents decode out = rest.filterMap (lineToNode decode) ∧
    (∀ line, decode line = none → lineToNode decode line = none) ∧
    (∀ line n, decode line = some n → n.structType = "node" → line ≠ "" →
      lineToNode decode line = some n) := by
  refine ⟨?_, ?_, ?_⟩
  · have hnone : lineToNode decode firstLine = none := by
      simp only [lineToNode]
      split
      · rfl
      · cases h : decode firstLine with
        | none => rfl
        | some n => simp [hfirst n h]
    simp [listSnapshotContents, hsplit, List.filterMap_cons, hnone]
  · intro line h; simp [lineToNode, h]
  · intro line n h htag hne; simp [lineToNode, hne, h, htag]

/-- Concrete decoder used to witness C9: the first line decodes to the
snapshot-description record, one later line to a file node, the rest to
nothing. -/
def demoNodeDecode : String → Option FileNode :=
  fun line =>
    if line = "snapline" then
      some { structType := "snapshot", name := "", type := "", path := "", size := 0,
             mtime := "" }
    else if line = "nodeline" then
      some { structType := "node", name := "a.txt", type := "file", path := "/G/a.txt",
             size := 3, mtime := "2024-01-01T00:00:00Z" }
    else none

/-- Witness for C9 on a concrete three-line listing output. -/
theorem c9_witness :
    listSnapshotContents demoNodeDecode "snapline\nnodeline\njunk" =
      [{ structType := "node", name := "a.txt", type := "file", path := "/G/a.txt",
         size := 3, mtime := "2024-01-01T00:00:00Z" }] ∧
    lineToNode demoNodeDecode "junk" = none := by
  have h := c9_listing_discards_first demoNodeDecode "snapline\nnodeline\njunk"
    "snapline" ["nodeline", "junk"] (by decide)
    (by
      intro n hn
      have he : demoNodeDecode "snapline" =
          some { structType := "snapshot", name := "", type := "", path := "", size := 0,
                 mtime := "" } := rfl
      rw [he] at hn
      cases hn
      decide)
  exact ⟨by rw [h.1]; decide, h.2.1 "junk" rfl⟩

/-- C7: an empty selection makes `RestoreSelected` fail immediately with
"no paths selected" and perform no action (in particular it starts no
subprocess); and in custom mode the UI handler blocks on an empty target
path, so no backend call and no restore invocation happens. -/
theorem c7_restore_preconditions (runnerPresent repoFound : Bool)
    (snapshotID targetPath restoreMode uuidStr : String)
    (includePaths checkedPaths : List String) (toOriginal : Bool)
    (mkTempErr runErr : Option String) (env : MoveEnv) :
    (includePaths = [] → runnerPresent = true → repoFound = true →
      restoreSelected runnerPresent repoFound snapshotID includePaths targetPath
        toOriginal uuidStr mkTempErr runErr env = .err "no paths selected") ∧
    (includePaths = [] → startedActions (restoreSelected runnerPresent repoFound
      snapshotID includePaths targetPath toOriginal uuidStr mkTempErr runErr env) = []) ∧
    (restoreMode = "custom" → targetPath = "" →
      ∃ w, uiStartRestore restoreMode checkedPaths targetPath = .blocked w) ∧
    (restoreMode = "custom" → targetPath = "" →
      uiRestoreActions restoreMode checkedPaths targetPath runnerPresent repoFound
        snapshotID uuidStr mkTempErr runErr env = []) := by
  refine ⟨?_, ?_, ?_, ?_⟩
  · intro h hr hf; subst_vars; simp [restoreSelected]
  · intro h; subst h
    cases runnerPresent <;> cases repoFound <;> simp [restoreSelected, startedActions]
  · intro hm ht; subst_vars
    by_cases hc : checkedPaths.length = 0 <;> simp [uiStartRestore, hc]
  · intro hm ht; subst_vars
    by_cases hc : checkedPaths.length = 0 <;> simp [uiRestoreActions, uiStartRestore, hc]

/-- Filesystem behaviour used by concrete witnesses: one entry to move,
every operation succeeding. -/
def demoMoveEnv : MoveEnv where
  readDir := fun _ => .ok ["docs"]
  mkdir := fun _ => none
  renameOk := fun _ _ => true
  copyErr := fun _ _ => none

/-- Witness for C7 at concrete calls. -/
theorem c7_witness :
    restoreSelected true true "snap1" [] "D:\\out" false "u" none none demoMoveEnv =
      .err "no paths selected" ∧
    uiRestoreActions "custom" ["/G/docs"] "" true true "snap1" "u" none none
      demoMoveEnv = [] :=
  ⟨(c7_restore_preconditions true true "snap1" "D:\\out" "custom" "u" [] ["/G/docs"]
      false none none demoMoveEnv).1 rfl rfl rfl,
   (c7_restore_preconditions true true "snap1" "" "custom" "u" [] ["/G/docs"]
      false none none demoMoveEnv).2.2.2 rfl rfl⟩

/-- C6: when the leading segment of the first selected path (after
separator normalisation and trimming the leading slash) is not exactly
one character, the original-location branch emits only the
path-resolution error: no restore invocation is issued and no directory
is created. -/
theorem c6_path_resolution_failure (snapshotID targetPath uuidStr : String)
    (includePaths : List String) (mkTempErr runErr : Option String) (env : MoveEnv)
    (hne : includePaths ≠ [])
    (hseg : (leadingSegment (includePaths.headD "")).length ≠ 1) :
    restoreSelected true true snapshotID includePaths targetPath true uuidStr
      mkTempErr runErr env =
      .started [.emitError "Could not determine drive letter from path"] ∧
    countRunRestic (startedActions (restoreSelected true true snapshotID includePaths
      targetPath true uuidStr mkTempErr runErr env)) = 0 ∧
    (∀ p, Action.mkdirAll p ∉ startedActions (restoreSelected true true snapshotID
      includePaths targetPath true uuidStr mkTempErr runErr env)) := by
  have hdl : extractDriveLetter (includePaths.headD "") = "" := by
    simp only [extractDriveLetter]
    split
    · exact absurd (goByteLen_eq_one (by assumption)) hseg
    · rfl
  have hlen : includePaths.length ≠ 0 := by
    simpa [List.length_eq_zero] using hne
  have htr : restoreSelected true true snapshotID includePaths targetPath true uuidStr
      mkTempErr runErr env =
      .started [.emitError "Could not determine drive letter from path"] := by
    obtain ⟨p, ps, rfl⟩ : ∃ p ps, includePaths = p :: ps := by
      cases includePaths with
      | nil => exact absurd rfl hne
      | cons p ps => exact ⟨p, ps, rfl⟩
    simp only [List.headD_cons] at hdl
    simp [restoreSelected, origTrace, hdl]
  refine ⟨htr, ?_, ?_⟩
  · rw [htr]; rfl
  · intro p; rw [htr]; simp [startedActions]

/-- Witness for C6 on a network-style path with a multi-character first
segment. -/
theorem c6_witness :
    (["//server/share/file"] ≠ ([] : List String)) ∧
    (leadingSegment ((["//server/share/file"] : List String).headD "")).length ≠ 1 ∧
    restoreSelected true true "snap1" ["//server/share/file"] "" true "u" none none
      demoMoveEnv =
      .started [.emitError "Could not determine drive letter from path"] :=
  ⟨by decide, by decide,
   (c6_path_resolution_failure "snap1" "" "u" ["//server/share/file"] none none
      demoMoveEnv (by decide) (by decide)).1⟩

/-- C10: a staging directory with no subtree named after the derived
volume is treated as success — `moveContents` returns no error on a
missing source directory, and the operation still ends with the
completion event (and no error event) followed by staging removal. -/
theorem c10_missing_source_success (snapshotID targetPath V uuidStr : String)
    (includePaths : List String) (env : MoveEnv)
    (hne : includePaths ≠ [])
    (hdrive : extractDriveLetter (includePaths.headD "") = V) (hV : V ≠ "")
    (hread : env.readDir (winJoin (stagingDir V uuidStr) V) = .notExist) :
    moveContents env (winJoin (stagingDir V uuidStr) V) (V ++ ":\\") = ([], none) ∧
    restoreSelected true true snapshotID includePaths targetPath true uuidStr none
      none env =
      .started [.mkdirAll (stagingDir V uuidStr),
        .runRestic (restoreSelectedArgs snapshotID (stagingDir V uuidStr) includePaths),
        .emitComplete, .removeAll (stagingDir V uuidStr)] ∧
    Action.emitComplete ∈ startedActions (restoreSelected true true snapshotID
      includePaths targetPath true uuidStr none none env) ∧
    (∀ m, Action.emitError m ∉ startedActions (restoreSelected true true snapshotID
      includePaths targetPath true uuidStr none none env)) := by
  have hmv : moveContents env (winJoin (stagingDir V uuidStr) V) (V ++ ":\\") =
      ([], none) := by
    simp [moveContents, hread]
  have hlen : includePaths.length ≠ 0 := by
    simpa [List.length_eq_zero] using hne
  have htr : restoreSelected true true snapshotID includePaths targetPath true uuidStr
      none none env =
      .started [.mkdirAll (stagingDir V uuidStr),
        .runRestic (restoreSelectedArgs snapshotID (stagingDir V uuidStr) includePaths),
        .emitComplete, .removeAll (stagingDir V uuidStr)] := by
    obtain ⟨p, ps, rfl⟩ : ∃ p ps, includePaths = p :: ps := by
      cases includePaths with
      | nil => exact absurd rfl hne
      | cons p ps => exact ⟨p, ps, rfl⟩
    simp only [List.headD_cons] at hdrive
    simp [restoreSelected, origTrace, hdrive, hV, hmv]
  refine ⟨hmv, htr, ?_, ?_⟩
  · rw [htr]; simp [startedActions]
  · intro m; rw [htr]; simp [startedActions]

/-- Filesystem behaviour with a missing staging subtree, for the C10
witness. -/
def emptyStagingEnv : MoveEnv where
  readDir := fun _ => .notExist
  mkdir := fun _ => none
  renameOk := fun _ _ => true
  copyErr := fun _ _ => none

/-- Witness for C10 on a concrete restore whose staging subtree is
absent. -/
theorem c10_witness :
    moveContents emptyStagingEnv
      (winJoin (stagingDir "G" "123e4567-e89b-12d3-a456-426614174000") "G")
      ("G" ++ ":\\") = ([], none) ∧
    restoreSelected true true "snap1" ["/G/docs"] "" true
      "123e4567-e89b-12d3-a456-426614174000" none none emptyStagingEnv =
      .started [.mkdirAll "G:\\restic-gui-temp-123e4567",
        .runRestic ["restore", "snap1", "--target", "G:\\restic-gui-temp-123e4567",
          "--json", "--include", "/G/docs"],
        .emitComplete, .removeAll "G:\\restic-gui-temp-123e4567"] := by
  have h := c10_missing_source_success "snap1" "" "G"
    "123e4567-e89b-12d3-a456-426614174000" ["/G/docs"] emptyStagingEnv
    (by decide) (by decide) (by decide) rfl
  exact ⟨h.1, by rw [h.2.1]; decide⟩

/-- Success-path actions of the `moveContents` loop for one entry:
ensure the destination's parent directory, attempt the atomic rename,
and append the copy-and-delete fallback exactly when the rename fails. -/
def moveEntryActions (env : MoveEnv) (src dst name : String) : List Action :=
  [.mkdirAll (winDir (winJoin dst name)),
   .rename (winJoin src name) (winJoin dst name)] ++
  (if env.renameOk (winJoin src name) (winJoin dst name) then []
   else [.copyPath (winJoin src name) (winJoin dst name),
         .removeAll (winJoin src name)])

/-- When every entry's parent creation succeeds and every entry either
renames cleanly or copies cleanly, the `moveContents` loop performs
exactly the per-entry action sequences in listing order and reports no
error. -/
theorem moveLoop_success (env : MoveEnv) (src dst : String) (entries : List String)
    (hmk : ∀ name ∈ entries, env.mkdir (winDir (winJoin dst name)) = none)
    (hok : ∀ name ∈ entries,
      env.renameOk (winJoin src name) (winJoin dst name) = true ∨
      env.copyErr (winJoin src name) (winJoin dst name) = none) :
    moveLoop env src dst entries =
      (entries.flatMap (moveEntryActions env src dst), none) := by
  induction entries with
  | nil => rfl
  | cons name rest ih =>
    have hmk1 := hmk name (List.mem_cons_self _ _)
    have hok1 := hok name (List.mem_cons_self _ _)
    have ihr := ih (fun n hn => hmk n (List.mem_cons_of_mem _ hn))
      (fun n hn => hok n (List.mem_cons_of_mem _ hn))
    simp only [moveLoop, moveEntry, hmk1]
    cases hre : env.renameOk (winJoin src name) (winJoin dst name) with
    | true => simp [ihr, moveEntryActions, hre]
    | false =>
      rcases hok1 with h | h
      · rw [hre] at h; cases h
      · simp [h, ihr, moveEntryActions, hre]

/-- The move phase never launches an engine invocation. -/
theorem countRunRestic_moveEntryActions (env : MoveEnv) (src dst : String)
    (entries : List String) :
    countRunRestic (entries.flatMap (moveEntryActions env src dst)) = 0 := by
  induction entries with
  | nil => rfl
  | cons name rest ih =>
    have h1 : countRunRestic (moveEntryActions env src dst name) = 0 := by
      simp only [moveEntryActions, countRunRestic]
      cases env.renameOk (winJoin src name) (winJoin dst name) <;> simp
    simp only [List.flatMap_cons, countRunRestic, List.countP_append] at *
    omega

/-- C1: a restore to the original location over paths sharing volume V
stages under `V:\restic-gui-temp-` plus an 8-character token, issues
exactly one restore invocation with the documented argument list
(`--include` pairs in selection order), and — on clean completion with a
successful move phase — performs the per-entry move of every top-level
entry of `<staging>\V\` to `V:\` (rename attempt, copy-plus-delete
fallback, parents created before each move), emits completion only after
the moves, and removes the staging directory. -/
theorem c1_restore_original_orchestration (snapshotID targetPath V uuidStr : String)
    (paths entries : List String) (env : MoveEnv)
    (hne : paths ≠ [])
    (hV : ∀ p ∈ paths, extractDriveLetter p = V) (hVne : V ≠ "")
    (huuid : 8 ≤ uuidStr.toList.length)
    (hread : env.readDir (winJoin (stagingDir V uuidStr) V) = .ok entries)
    (hmk : ∀ name ∈ entries, env.mkdir (winDir (winJoin (V ++ ":\\") name)) = none)
    (hok : ∀ name ∈ entries,
      env.renameOk (winJoin (winJoin (stagingDir V uuidStr) V) name)
        (winJoin (V ++ ":\\") name) = true ∨
      env.copyErr (winJoin (winJoin (stagingDir V uuidStr) V) name)
        (winJoin (V ++ ":\\") name) = none) :
    stagingDir V uuidStr =
      V ++ ":\\restic-gui-temp-" ++ String.mk (uuidStr.toList.take 8) ∧
    (String.mk (uuidStr.toList.take 8)).length = 8 ∧
    (moveLoop env (winJoin (stagingDir V uuidStr) V) (V ++ ":\\") entries).2 = none ∧
    restoreSelected true true snapshotID paths targetPath true uuidStr none none env =
      .started ([.mkdirAll (stagingDir V uuidStr),
        .runRestic (["restore", snapshotID, "--target", stagingDir V uuidStr, "--json"] ++
          flagPairs "--include" paths)] ++
        entries.flatMap
          (moveEntryActions env (winJoin (stagingDir V uuidStr) V) (V ++ ":\\")) ++
        [.emitComplete, .removeAll (stagingDir V uuidStr)]) ∧
    countRunRestic (startedActions (restoreSelected true true snapshotID paths
      targetPath true uuidStr none none env)) = 1 := by
  have hml := moveLoop_success env (winJoin (stagingDir V uuidStr) V) (V ++ ":\\")
    entries hmk hok
  obtain ⟨p, ps, rfl⟩ : ∃ p ps, paths = p :: ps := by
    cases paths with
    | nil => exact absurd rfl hne
    | cons p ps => exact ⟨p, ps, rfl⟩
  have hdrive : extractDriveLetter p = V := hV p (List.mem_cons_self _ _)
  have htok : (String.mk (uuidStr.toList.take 8)).length = 8 := by
    show (uuidStr.toList.take 8).length = 8
    rw [List.length_take]
    omega
  have htr : restoreSelected true true snapshotID (p :: ps) targetPath true uuidStr
      none none env =
      .started ([.mkdirAll (stagingDir V uuidStr),
        .runRestic (["restore", snapshotID, "--target", stagingDir V uuidStr, "--json"] ++
          flagPairs "--include" (p :: ps))] ++
        entries.flatMap
          (moveEntryActions env (winJoin (stagingDir V uuidStr) V) (V ++ ":\\")) ++
        [.emitComplete, .removeAll (stagingDir V uuidStr)]) := by
    simp [restoreSelected, origTrace, hdrive, hVne, moveContents, hread, hml,
      restoreSelectedArgs]
  refine ⟨rfl, htok, ?_, htr, ?_⟩
  · rw [hml]
  · rw [htr]
    have hB := countRunRestic_moveEntryActions env
      (winJoin (stagingDir V uuidStr) V) (V ++ ":\\") entries
    simp only [startedActions, countRunRestic, List.countP_append] at *
    simp [hB]

/-- Witness for C1: the end-to-end scenario with two selected paths on
volume G and a single staged top-level entry. -/
theorem c1_witness :
    restoreSelected true true "snap1" ["/G/docs/report.pdf", "/G/docs/notes.txt"] ""
      true "123e4567-e89b-12d3-a456-426614174000" none none demoMoveEnv =
      .started [.mkdirAll "G:\\restic-gui-temp-123e4567",
        .runRestic ["restore", "snap1", "--target", "G:\\restic-gui-temp-123e4567",
          "--json", "--include", "/G/docs/report.pdf", "--include", "/G/docs/notes.txt"],
        .mkdirAll "G:\\",
        .rename "G:\\restic-gui-temp-123e4567\\G\\docs" "G:\\docs",
        .emitComplete, .removeAll "G:\\restic-gui-temp-123e4567"] := by
  have h := c1_restore_original_orchestration "snap1" "" "G"
    "123e4567-e89b-12d3-a456-426614174000"
    ["/G/docs/report.pdf", "/G/docs/notes.txt"] ["docs"] demoMoveEnv
    (by decide) (by decide) (by decide) (by decide) rfl
    (fun n _ => rfl) (fun n _ => Or.inl rfl)
  rw [h.2.2.2.1]
  decide

end ResticSpec
